/-
  Verification of the transactional outbox relay of the
  AchilleasB/identity-access-service repository.

  The Go sources are shallowly embedded as executable Lean definitions:
  machine time is `Nat` nanoseconds (mirroring Go `time.Duration`), the
  `outbox_events` table is a `List OutboxRow`, transactions are modelled by
  applying their updates only on commit, and the broker / SQL statements that
  can fail are driven by explicit success oracles.  `encoding/json` behaviour
  (Unmarshal into the `CreateBabyEvent` struct, Marshal back) is embedded by
  an executable JSON parser and serializer that follow Go's semantics for
  the payload shapes exercised here.
-/
import Mathlib

set_option maxRecDepth 10000

/-! ## Time constants (relay.go, `time.Duration` in nanoseconds) -/

def timeSecond : Nat := 1000000000

def timeMinute : Nat := 60 * timeSecond

/-- relay.go: `healthCheckStaleThreshold = 5 * time.Minute`. -/
def healthCheckStaleThreshold : Nat := 5 * timeMinute

/-- relay.go: `maxEventsPerBatch = 100`. -/
def maxEventsPerBatch : Nat := 100

/-- relay.go: `periodicProcessInterval = 90 * time.Second`. -/
def periodicProcessInterval : Nat := 90 * timeSecond

/-! ## JSON values and a parser for them

`encoding/json` is embedded executably: `jsonParse` accepts exactly one JSON
value (with surrounding whitespace), and `unmarshalCreateBabyEvent` mirrors
`json.Unmarshal(payload, &evt)` for `evt ports.CreateBabyEvent`:
the top-level value must be an object (or `null`, which Go treats as a no-op),
known keys are matched case-insensitively against their lowercase field tags,
string fields reject non-string values, `null` leaves a field untouched, and
unknown keys are ignored. -/

inductive JVal where
  | jnull : JVal
  | jbool : Bool → JVal
  | jnum : String → JVal
  | jstr : String → JVal
  | jarr : List JVal → JVal
  | jobj : List (String × JVal) → JVal
deriving Repr, BEq

def braceOpen : Char := Char.ofNat 123

def braceClose : Char := Char.ofNat 125

def isJsonWs (c : Char) : Bool :=
  c.toNat == 32 || c.toNat == 9 || c.toNat == 10 || c.toNat == 13

def skipWs (cs : List Char) : List Char :=
  match cs with
  | [] => []
  | c :: rest => if isJsonWs c then skipWs rest else cs

/-- Value of a hexadecimal digit, by code point range. -/
def hexVal (c : Char) : Option Nat :=
  let n := c.toNat
  if 48 ≤ n && n ≤ 57 then some (n - 48)
  else if 97 ≤ n && n ≤ 102 then some (n - 87)
  else if 65 ≤ n && n ≤ 70 then some (n - 55)
  else none

/-- Scan a JSON string body (the opening quote already consumed). -/
def scanJsonString : List Char → List Char → Option (String × List Char)
  | [], _ => none
  | c :: cs, acc =>
    if c == '"' then some (String.mk acc.reverse, cs)
    else if c == '\\' then
      match cs with
      | [] => none
      | e :: cs2 =>
        if e == '"' then scanJsonString cs2 ('"' :: acc)
        else if e == '\\' then scanJsonString cs2 ('\\' :: acc)
        else if e == '/' then scanJsonString cs2 ('/' :: acc)
        else if e == 'n' then scanJsonString cs2 ('\n' :: acc)
        else if e == 't' then scanJsonString cs2 ('\t' :: acc)
        else if e == 'r' then scanJsonString cs2 ('\r' :: acc)
        else if e == 'b' then scanJsonString cs2 (Char.ofNat 8 :: acc)
        else if e == 'f' then scanJsonString cs2 (Char.ofNat 12 :: acc)
        else if e == 'u' then
          match cs2 with
          | a :: b :: c3 :: d :: cs3 =>
            match hexVal a, hexVal b, hexVal c3, hexVal d with
            | some ha, some hb, some hc, some hd =>
              scanJsonString cs3 (Char.ofNat ((ha * 16 + hb) * 256 + (hc * 16 + hd)) :: acc)
            | _, _, _, _ => none
          | _ => none
        else none
    else scanJsonString cs (c :: acc)

def isNumChar (c : Char) : Bool :=
  c.isDigit || c == '-' || c == '+' || c == '.' || c == 'e' || c == 'E'

def spanNum : List Char → List Char × List Char
  | [] => ([], [])
  | c :: cs =>
    if isNumChar c then
      let (xs, rest) := spanNum cs
      (c :: xs, rest)
    else ([], c :: cs)

def expectLit : List Char → List Char → Option (List Char)
  | [], cs => some cs
  | l :: ls, c :: cs => if c == l then expectLit ls cs else none
  | _ :: _, [] => none

mutual

/-- Parse one JSON value, returning it and the unconsumed input. -/
def jValP : Nat → List Char → Option (JVal × List Char)
  | 0, _ => none
  | fuel + 1, cs =>
    match skipWs cs with
    | [] => none
    | c :: rest =>
      if c == 'n' then (expectLit ['u', 'l', 'l'] rest).map (fun r => (JVal.jnull, r))
      else if c == 't' then (expectLit ['r', 'u', 'e'] rest).map (fun r => (JVal.jbool true, r))
      else if c == 'f' then (expectLit ['a', 'l', 's', 'e'] rest).map (fun r => (JVal.jbool false, r))
      else if c == '"' then (scanJsonString rest []).map (fun p => (JVal.jstr p.1, p.2))
      else if c == '[' then (jArrItems fuel (skipWs rest)).map (fun p => (JVal.jarr p.1, p.2))
      else if c == braceOpen then (jObjItems fuel (skipWs rest)).map (fun p => (JVal.jobj p.1, p.2))
      else if c.isDigit || c == '-' then
        match spanNum (c :: rest) with
        | ([], _) => none
        | (xs, r) => some (JVal.jnum (String.mk xs), r)
      else none

/-- Parse array items after the opening bracket (leading whitespace skipped). -/
def jArrItems : Nat → List Char → Option (List JVal × List Char)
  | 0, _ => none
  | fuel + 1, cs =>
    match cs with
    | [] => none
    | c :: rest =>
      if c == ']' then some ([], rest)
      else
        match jValP fuel cs with
        | none => none
        | some (v, r) =>
          match skipWs r with
          | ',' :: r2 =>
            match jArrItems fuel (skipWs r2) with
            | some (vs, r3) =>
              match vs, skipWs r2 with
              | [], ']' :: _ => none
              | _, _ => some (v :: vs, r3)
            | none => none
          | ']' :: r2 => some ([v], r2)
          | _ => none

/-- Parse object members after the opening brace (leading whitespace skipped). -/
def jObjItems : Nat → List Char → Option (List (String × JVal) × List Char)
  | 0, _ => none
  | fuel + 1, cs =>
    match cs with
    | [] => none
    | c :: rest =>
      if c == braceClose then some ([], rest)
      else if c == '"' then
        match scanJsonString rest [] with
        | none => none
        | some (k, r) =>
          match skipWs r with
          | ':' :: r2 =>
            match jValP fuel r2 with
            | none => none
            | some (v, r3) =>
              match skipWs r3 with
              | ',' :: r4 =>
                match skipWs r4 with
                | '"' :: _ =>
                  match jObjItems fuel (skipWs r4) with
                  | some (kvs, r5) => some ((k, v) :: kvs, r5)
                  | none => none
                | _ => none
              | c5 :: r5 =>
                if c5 == braceClose then some ([(k, v)], r5) else none
              | [] => none
          | _ => none
      else none

end

/-- Parse a whole input as exactly one JSON value (trailing whitespace only),
    as `json.Unmarshal` requires. -/
def jsonParse (s : String) : Option JVal :=
  match jValP (2 * s.length + 4) s.data with
  | none => none
  | some (v, rest) =>
    match skipWs rest with
    | [] => some v
    | _ :: _ => none

/-! ## The CreateBabyEvent payload struct (ports/event.go) -/

structure CreateBabyEvent where
  UserID : String
  LastName : String
  RoomNumber : String
deriving Repr, DecidableEq

def zeroCreateBabyEvent : CreateBabyEvent := ⟨"", "", ""⟩

/-- Assign a JSON value to a Go `string` struct field: strings are taken,
    `null` leaves the field unchanged, and any other kind is a type error. -/
def setStrField (v : JVal) (set : String → CreateBabyEvent)
    (keep : CreateBabyEvent) : Option CreateBabyEvent :=
  match v with
  | JVal.jstr s => some (set s)
  | JVal.jnull => some keep
  | _ => none

/-- Case folding for key matching (the tags here are ASCII). -/
def lowerKey (s : String) : String :=
  String.mk (s.data.map Char.toLower)

/-- Apply one object member to the struct, matching field tags the way
    `encoding/json` does (case-insensitively; unknown keys are ignored). -/
def applyField (evt : CreateBabyEvent) (k : String) (v : JVal) : Option CreateBabyEvent :=
  if lowerKey k = "user_id" then setStrField v (fun s => { evt with UserID := s }) evt
  else if lowerKey k = "last_name" then setStrField v (fun s => { evt with LastName := s }) evt
  else if lowerKey k = "room_number" then setStrField v (fun s => { evt with RoomNumber := s }) evt
  else some evt

/-- Embedding of `json.Unmarshal(payload, &evt)` for `evt ports.CreateBabyEvent`. -/
def unmarshalCreateBabyEvent (payload : String) : Option CreateBabyEvent :=
  match jsonParse payload with
  | some (JVal.jobj fs) =>
    fs.foldlM (fun e kv => applyField e kv.1 kv.2) zeroCreateBabyEvent
  | some JVal.jnull => some zeroCreateBabyEvent
  | _ => none

/-! ## json.Marshal of a CreateBabyEvent -/

def hexDigit (n : Nat) : Char :=
  Char.ofNat (if n < 10 then 48 + n else 87 + n)

/-- Escape one character the way Go's `json.Marshal` does for strings
    (including the HTML-safe escapes for angle brackets and ampersand). -/
def goEscapeChar (c : Char) : String :=
  if c == '"' then "\\\""
  else if c == '\\' then "\\\\"
  else if c == '\n' then "\\n"
  else if c == '\r' then "\\r"
  else if c == '\t' then "\\t"
  else if c == '<' then "\\u003c"
  else if c == '>' then "\\u003e"
  else if c == '&' then "\\u0026"
  else if c.toNat < 32 then
    String.mk ['\\', 'u', '0', '0', hexDigit (c.toNat / 16), hexDigit (c.toNat % 16)]
  else String.singleton c

def goQuote (s : String) : String :=
  "\"" ++ String.join (s.data.map goEscapeChar) ++ "\""

/-- Embedding of `json.Marshal(evt)`: Go serializes struct fields in
    declaration order under their tags. -/
def jsonMarshalCreateBabyEvent (e : CreateBabyEvent) : String :=
  String.singleton braceOpen ++
    "\"user_id\":" ++ goQuote e.UserID ++
    ",\"last_name\":" ++ goQuote e.LastName ++
    ",\"room_number\":" ++ goQuote e.RoomNumber ++
    String.singleton braceClose

/-! ## Outbox rows and environment -/

/-- A row of the `outbox_events` table (DDL in the repository's tests). -/
structure OutboxRow where
  id : String
  aggregateType : String
  aggregateId : String
  eventType : String
  payload : String
  createdAt : Nat
  processedAt : Option Nat
deriving Repr, DecidableEq

/-- The published AMQP message (`amqp.Publishing` fields the adapter sets). -/
structure Publishing where
  ContentType : String
  DeliveryMode : Nat
  Body : String
deriving Repr, DecidableEq

/-- `amqp.Persistent`. -/
def amqpPersistent : Nat := 2

/-- baby_publisher.go `PublishBabyCreated`: the message handed to
    `ch.PublishWithContext` — body is `json.Marshal(evt)`, content type
    `application/json`, persistent delivery.  Whether the broker accepts the
    call is driven by a separate success oracle in the relay model. -/
def PublishBabyCreated (evt : CreateBabyEvent) : Publishing :=
  ⟨"application/json", amqpPersistent, jsonMarshalCreateBabyEvent evt⟩

/-- `os.Getenv`: the empty string when the variable is unset. -/
def osGetenv (env : List (String × String)) (key : String) : String :=
  match env.find? (fun kv => kv.1 == key) with
  | some kv => kv.2
  | none => ""

/-- relay_config.go `LoadRelayConfig`: `BABY_QUEUE_NAME` defaults to
    `babies` when empty.  This value configures the AMQP queue the publisher
    declares and publishes to. -/
def loadRelayBabyQueueName (env : List (String × String)) : String :=
  let q := osGetenv env "BABY_QUEUE_NAME"
  if q = "" then "babies" else q

/-- `UPDATE outbox_events SET processed_at = NOW() WHERE id = $1`. -/
def markProcessed (db : List OutboxRow) (id : String) (now : Nat) : List OutboxRow :=
  db.map (fun r => if r.id = id then { r with processedAt := some now } else r)

/-- Result of one relay processing call: the table after commit (or after
    rollback, when unchanged), the messages handed to the broker, and whether
    the call returned without error. -/
structure ProcResult where
  db : List OutboxRow
  published : List Publishing
  ok : Bool
deriving Repr, DecidableEq

/-- relay.go `processEventByID`: lock and fetch the single unprocessed row
    with the given id; if its `event_type` equals `os.Getenv("BABY_QUEUE_NAME")`,
    unmarshal the payload (marking the row processed and committing on parse
    failure) and publish; publish failure returns the error and rolls the
    transaction back; otherwise mark the row processed and commit.
    `pubOk` says whether `publisher.PublishBabyCreated` succeeds and
    `updateOk` whether the `UPDATE` statement succeeds. -/
def processEventByID (queue : String) (db : List OutboxRow)
    (pubOk : CreateBabyEvent → Bool) (updateOk : String → Bool)
    (eventID : String) (now : Nat) : ProcResult :=
  match db.find? (fun r => r.id == eventID && r.processedAt.isNone) with
  | none => ⟨db, [], true⟩
  | some row =>
    if row.eventType = queue then
      match unmarshalCreateBabyEvent row.payload with
      | none =>
        -- poison pill: the UPDATE error is discarded (`_, _ = tx.ExecContext`)
        ⟨if updateOk row.id then markProcessed db row.id now else db, [], true⟩
      | some evt =>
        if pubOk evt then
          if updateOk row.id then
            ⟨markProcessed db row.id now, [PublishBabyCreated evt], true⟩
          else ⟨db, [PublishBabyCreated evt], false⟩
        else ⟨db, [], false⟩
    else
      if updateOk row.id then ⟨markProcessed db row.id now, [], true⟩
      else ⟨db, [], false⟩

/-! ## The periodic sweep (`processUnprocessedEvents`) -/

/-- Stable insertion by `created_at` (models `ORDER BY created_at`). -/
def insertByCreatedAt (r : OutboxRow) : List OutboxRow → List OutboxRow
  | [] => [r]
  | x :: xs => if r.createdAt < x.createdAt then r :: x :: xs else x :: insertByCreatedAt r xs

def sortByCreatedAt : List OutboxRow → List OutboxRow
  | [] => []
  | x :: xs => insertByCreatedAt x (sortByCreatedAt xs)

/-- `SELECT … WHERE processed_at IS NULL ORDER BY created_at LIMIT 100`. -/
def sweepBatch (db : List OutboxRow) : List OutboxRow :=
  (sortByCreatedAt (db.filter (fun r => r.processedAt.isNone))).take maxEventsPerBatch

/-- In-transaction effects accumulated while walking a sweep batch: which row
    ids have been marked processed, and the messages already handed to the
    broker (broker effects survive a rollback). -/
structure SweepAcc where
  marks : List String
  published : List Publishing
deriving Repr, DecidableEq

/-- One iteration of the sweep loop body for record `rec`:
    mirror of the `for _, rec := range records` body in relay.go.
    An `Except.error` is the `return nil, err` of a failed final UPDATE. -/
def sweepStepRow (queue : String) (pubOk : CreateBabyEvent → Bool)
    (updateOk : String → Bool) (rec : OutboxRow) (acc : SweepAcc) :
    Except SweepAcc SweepAcc :=
  if rec.eventType = queue then
    match unmarshalCreateBabyEvent rec.payload with
    | none =>
      -- poison pill: update with error discarded, then `continue`
      Except.ok ⟨if updateOk rec.id then acc.marks ++ [rec.id] else acc.marks, acc.published⟩
    | some evt =>
      if pubOk evt then
        if updateOk rec.id then
          Except.ok ⟨acc.marks ++ [rec.id], acc.published ++ [PublishBabyCreated evt]⟩
        else Except.error ⟨acc.marks, acc.published ++ [PublishBabyCreated evt]⟩
      else
        -- publish failed: log and `continue`, skipping this row's UPDATE
        Except.ok acc
  else
    if updateOk rec.id then Except.ok ⟨acc.marks ++ [rec.id], acc.published⟩
    else Except.error acc

def sweepLoop (queue : String) (pubOk : CreateBabyEvent → Bool)
    (updateOk : String → Bool) : List OutboxRow → SweepAcc → Except SweepAcc SweepAcc
  | [], acc => Except.ok acc
  | rec :: rest, acc =>
    match sweepStepRow queue pubOk updateOk rec acc with
    | Except.ok acc2 => sweepLoop queue pubOk updateOk rest acc2
    | Except.error acc2 => Except.error acc2

/-- Commit: apply the accumulated `UPDATE`s. -/
def applyMarks (db : List OutboxRow) (marks : List String) (now : Nat) : List OutboxRow :=
  db.map (fun r => if r.id ∈ marks then { r with processedAt := some now } else r)

/-- relay.go `processUnprocessedEvents`: select up to 100 unprocessed rows in
    `created_at` order under one transaction, run the per-row loop, and commit;
    a failed final UPDATE returns the error and rolls the whole batch back
    (messages already published are not undone). -/
def processUnprocessedEvents (queue : String) (db : List OutboxRow)
    (pubOk : CreateBabyEvent → Bool) (updateOk : String → Bool)
    (now : Nat) : ProcResult :=
  match sweepLoop queue pubOk updateOk (sweepBatch db) ⟨[], []⟩ with
  | Except.ok acc => ⟨applyMarks db acc.marks now, acc.published, true⟩
  | Except.error acc => ⟨db, acc.published, false⟩

/-! ## The sony/gobreaker circuit breaker

The relay guards its DB transactions with a `gobreaker.CircuitBreaker`.
The library (third-party dependency, not repository code) is embedded from
its documented state-machine semantics: `Counts`, generation expiry, the
Closed → Open trip via `ReadyToTrip`, the Open → Half-Open transition after
`Timeout`, and the `MaxRequests` cap on concurrent half-open probes. -/

inductive GBState where
  | stClosed : GBState
  | stHalfOpen : GBState
  | stOpen : GBState
deriving Repr, DecidableEq

inductive GBError where
  | errOpenState : GBError
  | errTooManyRequests : GBError
deriving Repr, DecidableEq

structure GBCounts where
  requests : Nat
  totalSuccesses : Nat
  totalFailures : Nat
  consecutiveSuccesses : Nat
  consecutiveFailures : Nat
deriving Repr, DecidableEq

def countsClear : GBCounts := ⟨0, 0, 0, 0, 0⟩

def countsOnRequest (c : GBCounts) : GBCounts :=
  { c with requests := c.requests + 1 }

def countsOnSuccess (c : GBCounts) : GBCounts :=
  { c with totalSuccesses := c.totalSuccesses + 1,
           consecutiveSuccesses := c.consecutiveSuccesses + 1,
           consecutiveFailures := 0 }

def countsOnFailure (c : GBCounts) : GBCounts :=
  { c with totalFailures := c.totalFailures + 1,
           consecutiveFailures := c.consecutiveFailures + 1,
           consecutiveSuccesses := 0 }

/-- Breaker instance state; `expiry = none` models gobreaker's zero time
    (no pending expiry). -/
structure GoBreaker where
  maxRequests : Nat
  interval : Nat
  timeout : Nat
  readyToTrip : GBCounts → Bool
  state : GBState
  generation : Nat
  counts : GBCounts
  expiry : Option Nat

def toNewGeneration (cb : GoBreaker) (now : Nat) : GoBreaker :=
  let expiry : Option Nat :=
    match cb.state with
    | GBState.stClosed => if cb.interval = 0 then none else some (now + cb.interval)
    | GBState.stOpen => some (now + cb.timeout)
    | GBState.stHalfOpen => none
  { cb with generation := cb.generation + 1, counts := countsClear, expiry := expiry }

def setState (cb : GoBreaker) (s : GBState) (now : Nat) : GoBreaker :=
  if cb.state = s then cb else toNewGeneration { cb with state := s } now

/-- gobreaker `currentState`: refresh generation (Closed past its interval)
    and take the Open → Half-Open transition once `expiry` has passed. -/
def currentState (cb : GoBreaker) (now : Nat) : GoBreaker :=
  match cb.state with
  | GBState.stClosed =>
    match cb.expiry with
    | some e => if e < now then toNewGeneration cb now else cb
    | none => cb
  | GBState.stOpen =>
    match cb.expiry with
    | some e => if e < now then setState cb GBState.stHalfOpen now else cb
    | none => cb
  | GBState.stHalfOpen => cb

/-- gobreaker `State()`, as used by the relay's readiness probe. -/
def breakerStateAt (cb : GoBreaker) (now : Nat) : GBState :=
  (currentState cb now).state

/-- gobreaker `beforeRequest`: short-circuit when Open; reject surplus
    half-open probes; otherwise count the request in. -/
def beforeRequest (cb0 : GoBreaker) (now : Nat) : GoBreaker × Option GBError :=
  let cb := currentState cb0 now
  match cb.state with
  | GBState.stOpen => (cb, some GBError.errOpenState)
  | GBState.stHalfOpen =>
    if cb.maxRequests ≤ cb.counts.requests then (cb, some GBError.errTooManyRequests)
    else ({ cb with counts := countsOnRequest cb.counts }, none)
  | GBState.stClosed => ({ cb with counts := countsOnRequest cb.counts }, none)

def gbOnSuccess (cb : GoBreaker) (now : Nat) : GoBreaker :=
  match cb.state with
  | GBState.stClosed => { cb with counts := countsOnSuccess cb.counts }
  | GBState.stHalfOpen =>
    let cb2 := { cb with counts := countsOnSuccess cb.counts }
    if cb2.maxRequests ≤ cb2.counts.consecutiveSuccesses then
      setState cb2 GBState.stClosed now
    else cb2
  | GBState.stOpen => cb

def gbOnFailure (cb : GoBreaker) (now : Nat) : GoBreaker :=
  match cb.state with
  | GBState.stClosed =>
    let cb2 := { cb with counts := countsOnFailure cb.counts }
    if cb2.readyToTrip cb2.counts then setState cb2 GBState.stOpen now else cb2
  | GBState.stHalfOpen => setState cb GBState.stOpen now
  | GBState.stOpen => cb

/-- gobreaker `Execute` for a synchronous operation finishing at the same
    instant: `beforeRequest` then, when admitted, the success/failure hook. -/
def gbExecute (cb : GoBreaker) (now : Nat) (success : Bool) :
    GoBreaker × Option GBError :=
  match beforeRequest cb now with
  | (cb2, some e) => (cb2, some e)
  | (cb2, none) => (if success then gbOnSuccess cb2 now else gbOnFailure cb2 now, none)

/-- gobreaker `NewCircuitBreaker(settings)` with its zero-value defaults. -/
def gobreakerNew (maxRequests interval timeout : Nat)
    (readyToTrip : GBCounts → Bool) (now : Nat) : GoBreaker :=
  toNewGeneration
    { maxRequests := if maxRequests = 0 then 1 else maxRequests
      interval := interval
      timeout := if timeout = 0 then 60 * timeSecond else timeout
      readyToTrip := readyToTrip
      state := GBState.stClosed
      generation := 0
      counts := countsClear
      expiry := none } now

/-! ## The repository's breaker configuration (config package) -/

/-- relay_config.go `NewCircuitBreaker`: per-dependency timeout switch. -/
def breakerTimeoutFor (name : String) : Nat :=
  if name = "Redis-Auth" then 5 * timeSecond
  else if name = "PostgreSQL" || name = "MongoDB" || name = "Relay-PostgreSQL" then
    10 * timeSecond
  else 30 * timeSecond

/-- The `ReadyToTrip` closure: open after 3 consecutive failures. -/
def configReadyToTrip (c : GBCounts) : Bool :=
  3 ≤ c.consecutiveFailures

/-- config `NewCircuitBreaker(name)`: `MaxRequests: 3`, `Interval: 10 s`,
    per-dependency `Timeout`, trip on 3 consecutive failures. -/
def NewCircuitBreaker (name : String) (now : Nat) : GoBreaker :=
  gobreakerNew 3 (10 * timeSecond) (breakerTimeoutFor name) configReadyToTrip now

/-! ## Relay state and event loop (relay.go `Relay`, `Start`) -/

structure RelayS where
  db : List OutboxRow
  lastProcessed : Nat
  isHealthy : Bool
deriving Repr, DecidableEq

/-- `NewRelay`: `lastProcessed: time.Now()`, `isHealthy: true`. -/
def NewRelay (db : List OutboxRow) (now : Nat) : RelayS := ⟨db, now, true⟩

/-- The relay's DB circuit breaker, `config.NewCircuitBreaker("Relay-PostgreSQL")`. -/
def newRelayDbCB (now : Nat) : GoBreaker := NewCircuitBreaker "Relay-PostgreSQL" now

/-- `IsHealthy`: the raw liveness bit. -/
def IsHealthy (st : RelayS) : Bool := st.isHealthy

/-- relay.go `IsReady`: false when the DB breaker is Open, false when
    `time.Since(lastProcessed)` exceeds the 5-minute stale threshold,
    otherwise the liveness bit. -/
def IsReady (cb : GoBreaker) (st : RelayS) (now : Nat) : Bool :=
  if breakerStateAt cb now = GBState.stOpen then false
  else if healthCheckStaleThreshold < now - st.lastProcessed then false
  else st.isHealthy

/-- One wake-up of the `Start` select loop. -/
inductive RelayEvent where
  | notifyNil : RelayEvent
  | notify : String → RelayEvent
  | tick : RelayEvent

/-- relay.go `Start` loop body: a nil notification clears `isHealthy`;
    a successfully processed notification sets `lastProcessed` and
    `isHealthy`; a successful periodic sweep sets only `lastProcessed`;
    errors are logged and change no flag. -/
def relayStep (queue : String) (pubOk : CreateBabyEvent → Bool)
    (updateOk : String → Bool) (st : RelayS) (ev : RelayEvent) (now : Nat) : RelayS :=
  match ev with
  | RelayEvent.notifyNil => { st with isHealthy := false }
  | RelayEvent.notify eid =>
    let r := processEventByID queue st.db pubOk updateOk eid now
    if r.ok then ⟨r.db, now, true⟩ else { st with db := r.db }
  | RelayEvent.tick =>
    let r := processUnprocessedEvents queue st.db pubOk updateOk now
    if r.ok then ⟨r.db, now, st.isHealthy⟩ else { st with db := r.db }

/-! ## The outbox writer (registration side) -/

structure UserRow where
  id : String
  email : String
  role : String
  firstName : String
  lastName : String
  createdAt : Nat
deriving Repr, DecidableEq

structure ParentRow where
  userId : String
  roomNumber : String
  status : String
deriving Repr, DecidableEq

structure IdentityDB where
  users : List UserRow
  parents : List ParentRow
  outbox : List OutboxRow
deriving Repr, DecidableEq

/-- domain.Parent (embedded domain.User flattened). -/
structure DomainParent where
  id : String
  email : String
  role : String
  firstName : String
  lastName : String
  createdAt : Nat
  roomNumber : String
  status : String
deriving Repr, DecidableEq

/-- Modelled from the spec: the repository's outbox-aware
    `CreateParent(ctx, parent, outboxPayload)` is absent from the provided
    sources — only its caller `RegisterParent` and the repository mock show
    the three-argument signature.  Per §4.3 it opens one transaction, inserts
    the user row and the parent row, inserts
    `outbox_events (new_uuid, 'parent', parent.id, <target_event_type>,
    outbox_payload, now())`, and commits; if any insert fails the transaction
    is rolled back (`Except.error`, leaving the database untouched).
    `okUsers`, `okParents`, `okOutbox` are the success oracles of the three
    INSERT statements. -/
def CreateParent (db : IdentityDB) (parent : DomainParent) (outboxPayload : String)
    (newUuid : String) (targetEventType : String) (now : Nat)
    (okUsers okParents okOutbox : Bool) : Except Unit IdentityDB :=
  if !okUsers then Except.error ()
  else if !okParents then Except.error ()
  else if !okOutbox then Except.error ()
  else Except.ok
    { users := db.users ++
        [⟨parent.id, parent.email, parent.role, parent.firstName,
          parent.lastName, parent.createdAt⟩]
      parents := db.parents ++ [⟨parent.id, parent.roomNumber, parent.status⟩]
      outbox := db.outbox ++
        [⟨newUuid, "parent", parent.id, targetEventType, outboxPayload, now, none⟩] }

/-! ## Concrete rows and states used by witnesses and counterexamples -/

def goodPayload : String :=
  "\x7b\"user_id\":\"u1\",\"last_name\":\"Doe\",\"room_number\":\"101\"\x7d"

def goodEvent : CreateBabyEvent := ⟨"u1", "Doe", "101"⟩

def wRowBabies : OutboxRow := ⟨"e1", "parent", "u1", "babies", goodPayload, 0, none⟩

def wRowPoison : OutboxRow := ⟨"e4", "parent", "u1", "babies", "not json", 0, none⟩

def emptyObjRow : OutboxRow := ⟨"e3", "parent", "u1", "babies", "\x7b\x7d", 0, none⟩

def wParent : DomainParent :=
  ⟨"p1", "jo@example.com", "PARENT", "Jo", "Doe", 3, "101", "Active"⟩

/-! ## Claim C1 — atomicity of the parent registration write -/

/-- Claim C1: `CreateParent` inserts the user row, the parent row and the
    `outbox_events` row (new UUID, aggregate_type `parent`, the parent's id,
    the target event type, the outbox payload, now, unprocessed) in one
    transaction; if any of the three inserts fails the transaction rolls back
    and no outbox row is emitted. -/
theorem CreateParent_atomic
    (db : IdentityDB) (parent : DomainParent) (payload newUuid targetEventType : String)
    (now : Nat) (okUsers okParents okOutbox : Bool) :
    (okUsers = true → okParents = true → okOutbox = true →
      CreateParent db parent payload newUuid targetEventType now okUsers okParents okOutbox =
        Except.ok
          { users := db.users ++
              [⟨parent.id, parent.email, parent.role, parent.firstName,
                parent.lastName, parent.createdAt⟩]
            parents := db.parents ++ [⟨parent.id, parent.roomNumber, parent.status⟩]
            outbox := db.outbox ++
              [⟨newUuid, "parent", parent.id, targetEventType, payload, now, none⟩] }) ∧
    ((okUsers = false ∨ okParents = false ∨ okOutbox = false) →
      CreateParent db parent payload newUuid targetEventType now okUsers okParents okOutbox =
        Except.error ()) := by
  constructor
  · intro h1 h2 h3
    simp [CreateParent, h1, h2, h3]
  · intro h
    cases okUsers <;> cases okParents <;> cases okOutbox <;> simp_all [CreateParent]

/-- Witness for Claim C1 at a concrete registration: all inserts succeed and
    the three rows land; the outbox insert fails and nothing lands. -/
theorem CreateParent_atomic_witness :
    (CreateParent ⟨[], [], []⟩ wParent "\x7b\x7d" "uuid-1" "babies" 5 true true true =
      Except.ok
        { users := [⟨"p1", "jo@example.com", "PARENT", "Jo", "Doe", 3⟩]
          parents := [⟨"p1", "101", "Active"⟩]
          outbox := [⟨"uuid-1", "parent", "p1", "babies", "\x7b\x7d", 5, none⟩] }) ∧
    (CreateParent ⟨[], [], []⟩ wParent "\x7b\x7d" "uuid-1" "babies" 5 true true false =
      Except.error ()) :=
  ⟨(CreateParent_atomic ⟨[], [], []⟩ wParent "\x7b\x7d" "uuid-1" "babies" 5
      true true true).1 rfl rfl rfl,
   (CreateParent_atomic ⟨[], [], []⟩ wParent "\x7b\x7d" "uuid-1" "babies" 5
      true true false).2 (Or.inr (Or.inr rfl))⟩

/-! ## Claim C2 — publish failure rolls the notification transaction back -/

/-- Claim C2: for a row matching the target queue whose payload unmarshals,
    a failed publish makes `processEventByID` return the error with the
    transaction rolled back: the table is unchanged, nothing was published,
    and the row (which was unprocessed when selected) keeps
    `processed_at = NULL`. -/
theorem processEventByID_publish_failure
    (queue : String) (db : List OutboxRow) (pubOk : CreateBabyEvent → Bool)
    (updateOk : String → Bool) (eventID : String) (now : Nat)
    (row : OutboxRow) (evt : CreateBabyEvent)
    (hfind : db.find? (fun r => r.id == eventID && r.processedAt.isNone) = some row)
    (hq : row.eventType = queue)
    (hparse : unmarshalCreateBabyEvent row.payload = some evt)
    (hpub : pubOk evt = false) :
    processEventByID queue db pubOk updateOk eventID now = ⟨db, [], false⟩ ∧
    row ∈ db ∧ row.processedAt = none := by
  have hp := List.find?_some hfind
  have hmem := List.mem_of_find?_eq_some hfind
  simp only [Bool.and_eq_true, Option.isNone_iff_eq_none] at hp
  refine ⟨?_, hmem, hp.2⟩
  simp [processEventByID, hfind, hq, hparse, hpub]

/-- Witness for Claim C2: a concrete `babies` row with a well-formed payload
    and a broker that refuses the publish. -/
theorem processEventByID_publish_failure_witness :
    processEventByID "babies" [wRowBabies] (fun _ => false) (fun _ => true) "e1" 7 =
      ⟨[wRowBabies], [], false⟩ :=
  (processEventByID_publish_failure "babies" [wRowBabies] (fun _ => false)
    (fun _ => true) "e1" 7 wRowBabies goodEvent (by decide) rfl (by decide) rfl).1

/-! ## Claim C3 — what bytes reach the broker -/

/-- Claim C3 as stated is false: the relay does not forward the stored
    payload bytes.  For the stored payload `\x7b\x7d` the broker receives the
    re-serialized struct, which differs from the stored bytes. -/
theorem published_body_not_stored_bytes :
    ((processEventByID "babies" [emptyObjRow] (fun _ => true) (fun _ => true)
        "e3" 7).published.map (fun m => m.Body) =
      ["\x7b\"user_id\":\"\",\"last_name\":\"\",\"room_number\":\"\"\x7d"]) ∧
    emptyObjRow.payload = "\x7b\x7d" ∧
    ("\x7b\"user_id\":\"\",\"last_name\":\"\",\"room_number\":\"\"\x7d" : String) ≠
      "\x7b\x7d" := by
  refine ⟨by rfl, rfl, by decide⟩

/-- Claim C3 amended: the body delivered to the broker is
    `json.Marshal` of the `CreateBabyEvent` decoded from the stored payload
    (fields `user_id`, `last_name`, `room_number` in struct order), published
    with `application/json` content type and persistent delivery; it equals
    the stored bytes only when the payload is already in that canonical
    serialization. -/
theorem processEventByID_publishes_marshalled
    (queue : String) (db : List OutboxRow) (pubOk : CreateBabyEvent → Bool)
    (updateOk : String → Bool) (eventID : String) (now : Nat)
    (row : OutboxRow) (evt : CreateBabyEvent)
    (hfind : db.find? (fun r => r.id == eventID && r.processedAt.isNone) = some row)
    (hq : row.eventType = queue)
    (hparse : unmarshalCreateBabyEvent row.payload = some evt)
    (hpub : pubOk evt = true) (hupd : updateOk row.id = true) :
    (processEventByID queue db pubOk updateOk eventID now).published =
      [⟨"application/json", amqpPersistent, jsonMarshalCreateBabyEvent evt⟩] := by
  simp [processEventByID, hfind, hq, hparse, hpub, hupd, PublishBabyCreated]

/-- Witness for the amended Claim C3 at a concrete row. -/
theorem processEventByID_publishes_marshalled_witness :
    (processEventByID "babies" [wRowBabies] (fun _ => true) (fun _ => true)
        "e1" 7).published =
      [⟨"application/json", amqpPersistent, jsonMarshalCreateBabyEvent goodEvent⟩] :=
  processEventByID_publishes_marshalled "babies" [wRowBabies] (fun _ => true)
    (fun _ => true) "e1" 7 wRowBabies goodEvent (by decide) rfl (by decide) rfl rfl

/-! ## Claim C4 — poison-pill payloads are consumed internally -/

/-- Claim C4: a matching row whose payload fails to unmarshal is marked
    processed and committed, nothing is published, and the call returns
    without error — the malformed-payload condition never reaches the
    caller. -/
theorem processEventByID_poison_pill
    (queue : String) (db : List OutboxRow) (pubOk : CreateBabyEvent → Bool)
    (updateOk : String → Bool) (eventID : String) (now : Nat) (row : OutboxRow)
    (hfind : db.find? (fun r => r.id == eventID && r.processedAt.isNone) = some row)
    (hq : row.eventType = queue)
    (hparse : unmarshalCreateBabyEvent row.payload = none)
    (hupd : updateOk row.id = true) :
    processEventByID queue db pubOk updateOk eventID now =
      ⟨markProcessed db row.id now, [], true⟩ ∧
    ({ row with processedAt := some now }) ∈ markProcessed db row.id now := by
  constructor
  · simp [processEventByID, hfind, hq, hparse, hupd]
  · have hmem := List.mem_of_find?_eq_some hfind
    have h2 := List.mem_map_of_mem
      (fun r => if r.id = row.id then { r with processedAt := some now } else r) hmem
    simpa [markProcessed] using h2

/-- Witness for Claim C4: payload `not json` on the target queue. -/
theorem processEventByID_poison_pill_witness :
    processEventByID "babies" [wRowPoison] (fun _ => true) (fun _ => true) "e4" 7 =
      ⟨[{ wRowPoison with processedAt := some 7 }], [], true⟩ :=
  ((processEventByID_poison_pill "babies" [wRowPoison] (fun _ => true)
      (fun _ => true) "e4" 7 wRowPoison rfl rfl rfl rfl).1).trans (by rfl)

/-! ## Claim C6 — the dispatch filter when BABY_QUEUE_NAME is unset -/

def c6row : OutboxRow := ⟨"e6", "parent", "u1", "babies", goodPayload, 0, none⟩

/-- Claim C6 fails on the code: with `BABY_QUEUE_NAME` unset, the config
    loader defaults the AMQP queue name to `babies`, but the dispatch filter
    compares `event_type` against the raw `os.Getenv` result — the empty
    string — so a row with `event_type = "babies"` is marked processed
    without being published, with a broker that would accept anything. -/
theorem unset_queue_env_drains_babies_row :
    osGetenv [] "BABY_QUEUE_NAME" = "" ∧
    loadRelayBabyQueueName [] = "babies" ∧
    processEventByID (osGetenv [] "BABY_QUEUE_NAME") [c6row]
        (fun _ => true) (fun _ => true) "e6" 7 =
      ⟨[{ c6row with processedAt := some 7 }], [], true⟩ := by
  refine ⟨rfl, rfl, by rfl⟩

/-! ## Claim C7 — the liveness bit -/

def relayStart : RelayS := NewRelay [] 0

def c7afterNil : RelayS :=
  relayStep "babies" (fun _ => true) (fun _ => true) relayStart RelayEvent.notifyNil 1

def c7afterSweep : RelayS :=
  relayStep "babies" (fun _ => true) (fun _ => true) c7afterNil RelayEvent.tick 2

/-- Claim C7 as stated is false: after a nil notification cleared the bit,
    a periodic sweep that succeeds (here on an empty table) leaves
    `is_alive = false` — the sweep branch updates only `last_processed`. -/
theorem sweep_success_does_not_restore_liveness :
    (processUnprocessedEvents "babies" c7afterNil.db (fun _ => true)
      (fun _ => true) 2).ok = true ∧
    c7afterSweep.isHealthy = false ∧
    c7afterSweep.lastProcessed = 2 := by decide

/-- Claim C7 amended: a nil notification clears `is_alive` without crashing;
    a successfully processed notification sets both `last_processed_at` and
    `is_alive`; a successful periodic sweep sets `last_processed_at` but
    leaves `is_alive` unchanged (it does not set it). -/
theorem relayStep_liveness
    (queue : String) (pubOk : CreateBabyEvent → Bool) (updateOk : String → Bool)
    (st : RelayS) (eid : String) (now : Nat)
    (hsweep : (processUnprocessedEvents queue st.db pubOk updateOk now).ok = true)
    (hproc : (processEventByID queue st.db pubOk updateOk eid now).ok = true) :
    (relayStep queue pubOk updateOk st RelayEvent.notifyNil now).isHealthy = false ∧
    (relayStep queue pubOk updateOk st RelayEvent.tick now).isHealthy = st.isHealthy ∧
    (relayStep queue pubOk updateOk st RelayEvent.tick now).lastProcessed = now ∧
    (relayStep queue pubOk updateOk st (RelayEvent.notify eid) now).isHealthy = true ∧
    (relayStep queue pubOk updateOk st (RelayEvent.notify eid) now).lastProcessed = now := by
  refine ⟨rfl, ?_, ?_, ?_, ?_⟩ <;> simp [relayStep, hsweep, hproc]

/-- Witness for the amended Claim C7 on a concrete degraded state. -/
theorem relayStep_liveness_witness :
    (relayStep "b" (fun _ => true) (fun _ => true) ⟨[], 0, false⟩
        RelayEvent.notifyNil 2).isHealthy = false ∧
    (relayStep "b" (fun _ => true) (fun _ => true) ⟨[], 0, false⟩
        RelayEvent.tick 2).isHealthy = false ∧
    (relayStep "b" (fun _ => true) (fun _ => true) ⟨[], 0, false⟩
        (RelayEvent.notify "e") 2).isHealthy = true := by
  have h := relayStep_liveness "b" (fun _ => true) (fun _ => true) ⟨[], 0, false⟩
    "e" 2 (by decide) (by decide)
  exact ⟨h.1, h.2.1, h.2.2.2.1⟩

/-! ## Claim C8 — the readiness predicate -/

/-- Claim C8 as stated is false: readiness is not equivalent to
    "breaker not Open and recently processed" — with a fresh (Closed)
    breaker and `last_processed = now`, a relay whose liveness bit is down
    still reports not ready. -/
theorem IsReady_not_breaker_and_fresh_only :
    ¬ (IsReady (newRelayDbCB 0) ⟨[], 0, false⟩ 0 = true ↔
       (breakerStateAt (newRelayDbCB 0) 0 ≠ GBState.stOpen ∧
        0 - 0 ≤ healthCheckStaleThreshold)) := by decide

/-- Claim C8 amended: `IsReady` returns true iff the DB breaker is not Open,
    `last_processed_at` is within the 5-minute stale threshold, and the
    liveness bit `isHealthy` is set. -/
theorem IsReady_iff (cb : GoBreaker) (st : RelayS) (now : Nat) :
    IsReady cb st now = true ↔
      (breakerStateAt cb now ≠ GBState.stOpen ∧
       now - st.lastProcessed ≤ healthCheckStaleThreshold ∧
       st.isHealthy = true) := by
  by_cases h1 : breakerStateAt cb now = GBState.stOpen
  · simp [IsReady, h1]
  · by_cases h2 : healthCheckStaleThreshold < now - st.lastProcessed
    · simp only [IsReady, if_neg h1, if_pos h2]
      constructor
      · intro h; cases h
      · rintro ⟨-, hle, -⟩; omega
    · simp [IsReady, h1, h2, Nat.not_lt.mp h2]

/-! ## Sweep loop characterizations (for Claims C5 and C10) -/

/-- Whether the sweep body would mark this record processed (match miss,
    poison pill, or successful publish). -/
def shouldMark (queue : String) (pubOk : CreateBabyEvent → Bool) (rec : OutboxRow) : Bool :=
  if rec.eventType = queue then
    match unmarshalCreateBabyEvent rec.payload with
    | none => true
    | some evt => pubOk evt
  else true

/-- The message the sweep body publishes for this record, if any. -/
def pubOf (queue : String) (pubOk : CreateBabyEvent → Bool) (rec : OutboxRow) :
    Option Publishing :=
  if rec.eventType = queue then
    match unmarshalCreateBabyEvent rec.payload with
    | none => none
    | some evt => if pubOk evt then some (PublishBabyCreated evt) else none
  else none

def sweepPublished (queue : String) (pubOk : CreateBabyEvent → Bool)
    (records : List OutboxRow) : List Publishing :=
  records.filterMap (pubOf queue pubOk)

/-- Whether the sweep body reaches the fallible final `UPDATE` for this
    record (a non-matching row, or a matching row that published). -/
def reachesFinalUpdate (queue : String) (pubOk : CreateBabyEvent → Bool)
    (rec : OutboxRow) : Bool :=
  if rec.eventType = queue then
    match unmarshalCreateBabyEvent rec.payload with
    | none => false
    | some evt => pubOk evt
  else true

/-- When every final UPDATE in the batch succeeds, the sweep loop commits:
    it marks exactly the `shouldMark` records and publishes the `pubOf`
    messages, in order. -/
theorem sweepLoop_all_updates_ok (queue : String) (pubOk : CreateBabyEvent → Bool)
    (updateOk : String → Bool) (records : List OutboxRow) :
    ∀ acc : SweepAcc, (∀ r ∈ records, updateOk r.id = true) →
      sweepLoop queue pubOk updateOk records acc =
        Except.ok
          ⟨acc.marks ++ (records.filter (shouldMark queue pubOk)).map (fun r => r.id),
           acc.published ++ sweepPublished queue pubOk records⟩ := by
  induction records with
  | nil => intro acc _; simp [sweepLoop, sweepPublished]
  | cons rec rest ih =>
    intro acc h
    have hrec : updateOk rec.id = true := h rec (List.mem_cons_self rec rest)
    have hrest : ∀ r ∈ rest, updateOk r.id = true :=
      fun r hr => h r (List.mem_cons_of_mem rec hr)
    have ih2 : ∀ acc2 : SweepAcc,
        sweepLoop queue pubOk updateOk rest acc2 =
          Except.ok
            ⟨acc2.marks ++ (rest.filter (shouldMark queue pubOk)).map (fun r => r.id),
             acc2.published ++ sweepPublished queue pubOk rest⟩ :=
      fun acc2 => ih acc2 hrest
    by_cases hq : rec.eventType = queue
    · cases hm : unmarshalCreateBabyEvent rec.payload with
      | none =>
        simp [sweepLoop, sweepStepRow, hq, hm, hrec, ih2, shouldMark, pubOf,
          sweepPublished, List.filter_cons, List.filterMap_cons]
      | some evt =>
        cases hp : pubOk evt with
        | true =>
          simp [sweepLoop, sweepStepRow, hq, hm, hp, hrec, ih2, shouldMark, pubOf,
            sweepPublished, List.filter_cons, List.filterMap_cons]
        | false =>
          simp [sweepLoop, sweepStepRow, hq, hm, hp, ih2, shouldMark, pubOf,
            sweepPublished, List.filter_cons, List.filterMap_cons]
    · simp [sweepLoop, sweepStepRow, hq, hrec, ih2, shouldMark, pubOf,
        sweepPublished, List.filter_cons, List.filterMap_cons]

/-- A record whose final UPDATE fails makes its loop iteration return the
    error. -/
theorem sweepStepRow_fails (queue : String) (pubOk : CreateBabyEvent → Bool)
    (updateOk : String → Bool) (rec : OutboxRow) (acc : SweepAcc)
    (hr : reachesFinalUpdate queue pubOk rec = true)
    (hu : updateOk rec.id = false) :
    ∃ a, sweepStepRow queue pubOk updateOk rec acc = Except.error a := by
  unfold reachesFinalUpdate at hr
  unfold sweepStepRow
  by_cases hq : rec.eventType = queue
  · rw [if_pos hq] at hr ⊢
    cases hm : unmarshalCreateBabyEvent rec.payload with
    | none => rw [hm] at hr; simp at hr
    | some evt => rw [hm] at hr; simp at hr; simp [hr, hu]
  · rw [if_neg hq] at hr ⊢
    simp [hu]

/-- If some record in the batch reaches a failing final UPDATE, the whole
    loop errors out. -/
theorem sweepLoop_fails (queue : String) (pubOk : CreateBabyEvent → Bool)
    (updateOk : String → Bool) (records : List OutboxRow) :
    ∀ (acc : SweepAcc) (rec : OutboxRow), rec ∈ records →
      reachesFinalUpdate queue pubOk rec = true → updateOk rec.id = false →
      ∃ a, sweepLoop queue pubOk updateOk records acc = Except.error a := by
  induction records with
  | nil => intro acc rec hmem; cases hmem
  | cons r0 rest ih =>
    intro acc rec hmem hr hu
    rcases List.mem_cons.mp hmem with h0 | hmem2
    · subst h0
      obtain ⟨a, ha⟩ := sweepStepRow_fails queue pubOk updateOk rec acc hr hu
      exact ⟨a, by simp [sweepLoop, ha]⟩
    · cases hstep : sweepStepRow queue pubOk updateOk r0 acc with
      | ok acc2 =>
        obtain ⟨a, ha⟩ := ih acc2 rec hmem2 hr hu
        exact ⟨a, by simp [sweepLoop, hstep, ha]⟩
      | error a => exact ⟨a, by simp [sweepLoop, hstep]⟩

/-! ## Membership facts about the sweep batch -/

theorem mem_insertByCreatedAt (r x : OutboxRow) (l : List OutboxRow) :
    x ∈ insertByCreatedAt r l ↔ x = r ∨ x ∈ l := by
  induction l with
  | nil => simp [insertByCreatedAt]
  | cons y ys ih =>
    simp only [insertByCreatedAt]
    split
    · simp [List.mem_cons]
    · simp only [List.mem_cons, ih]
      tauto

theorem mem_sortByCreatedAt (x : OutboxRow) (l : List OutboxRow) :
    x ∈ sortByCreatedAt l ↔ x ∈ l := by
  induction l with
  | nil => simp [sortByCreatedAt]
  | cons y ys ih => simp [sortByCreatedAt, mem_insertByCreatedAt, ih]

theorem mem_of_mem_sweepBatch (x : OutboxRow) (db : List OutboxRow)
    (h : x ∈ sweepBatch db) : x ∈ db ∧ x.processedAt = none := by
  unfold sweepBatch at h
  have h2 : x ∈ sortByCreatedAt (db.filter fun r => r.processedAt.isNone) :=
    List.mem_of_mem_take h
  rw [mem_sortByCreatedAt] at h2
  have h3 := List.mem_filter.mp h2
  exact ⟨h3.1, Option.isNone_iff_eq_none.mp h3.2⟩


/-! ## Claim C5 — a publish failure does not stall the sweep batch -/

/-- Claim C5: within one sweep batch (all UPDATEs succeeding), a row whose
    publish fails is skipped — the transaction is not aborted, the sweep
    returns without error, and the failed row survives in the table
    unchanged with `processed_at = NULL` — while a row of the same batch
    that published successfully is committed as processed. -/
theorem sweep_publish_failure_skips_row
    (queue : String) (db : List OutboxRow) (pubOk : CreateBabyEvent → Bool)
    (updateOk : String → Bool) (now : Nat)
    (f s : OutboxRow) (evtf evts : CreateBabyEvent)
    (hupd : ∀ r ∈ sweepBatch db, updateOk r.id = true)
    (hnd : ((sweepBatch db).map (fun r => r.id)).Nodup)
    (hfb : f ∈ sweepBatch db) (hfq : f.eventType = queue)
    (hfm : unmarshalCreateBabyEvent f.payload = some evtf) (hfp : pubOk evtf = false)
    (hsb : s ∈ sweepBatch db) (hsq : s.eventType = queue)
    (hsm : unmarshalCreateBabyEvent s.payload = some evts) (hsp : pubOk evts = true) :
    (processUnprocessedEvents queue db pubOk updateOk now).ok = true ∧
    f ∈ (processUnprocessedEvents queue db pubOk updateOk now).db ∧
    f.processedAt = none ∧
    ({ s with processedAt := some now }) ∈
      (processUnprocessedEvents queue db pubOk updateOk now).db := by
  have hloop := sweepLoop_all_updates_ok queue pubOk updateOk (sweepBatch db)
    ⟨[], []⟩ hupd
  have hres : processUnprocessedEvents queue db pubOk updateOk now =
      ⟨applyMarks db
          (((sweepBatch db).filter (shouldMark queue pubOk)).map (fun r => r.id)) now,
        sweepPublished queue pubOk (sweepBatch db), true⟩ := by
    simp [processUnprocessedEvents, hloop]
  obtain ⟨hfdb, hfnone⟩ := mem_of_mem_sweepBatch f db hfb
  obtain ⟨hsdb, -⟩ := mem_of_mem_sweepBatch s db hsb
  have hfns : f.id ∉
      ((sweepBatch db).filter (shouldMark queue pubOk)).map (fun r => r.id) := by
    intro hmem
    obtain ⟨u, hu, hid⟩ := List.mem_map.mp hmem
    have hum := List.mem_filter.mp hu
    have hueq : u = f := List.inj_on_of_nodup_map hnd hum.1 hfb hid
    have hsm2 : shouldMark queue pubOk f = true := hueq ▸ hum.2
    rw [shouldMark, if_pos hfq, hfm] at hsm2
    simp [hfp] at hsm2
  have hsin : s.id ∈
      ((sweepBatch db).filter (shouldMark queue pubOk)).map (fun r => r.id) :=
    List.mem_map_of_mem _
      (List.mem_filter.mpr ⟨hsb, by rw [shouldMark, if_pos hsq, hsm]; exact hsp⟩)
  refine ⟨by rw [hres], ?_, hfnone, ?_⟩
  · rw [hres]
    have h2 := List.mem_map_of_mem
      (fun r => if r.id ∈
          ((sweepBatch db).filter (shouldMark queue pubOk)).map (fun r => r.id) then
        { r with processedAt := some now } else r) hfdb
    simpa [applyMarks, if_neg hfns] using h2
  · rw [hres]
    have h2 := List.mem_map_of_mem
      (fun r => if r.id ∈
          ((sweepBatch db).filter (shouldMark queue pubOk)).map (fun r => r.id) then
        { r with processedAt := some now } else r) hsdb
    simpa [applyMarks, if_pos hsin] using h2

def c5rowFail : OutboxRow :=
  ⟨"f1", "parent", "u1", "babies",
    "\x7b\"user_id\":\"u1\",\"last_name\":\"A\",\"room_number\":\"1\"\x7d", 0, none⟩

def c5rowOkay : OutboxRow :=
  ⟨"s1", "parent", "u2", "babies",
    "\x7b\"user_id\":\"u2\",\"last_name\":\"B\",\"room_number\":\"2\"\x7d", 1, none⟩

def c5pub : CreateBabyEvent → Bool := fun e => e.UserID == "u2"

/-- Witness for Claim C5: a two-row batch where the first row's publish
    fails and the second row's publish succeeds. -/
theorem sweep_publish_failure_skips_row_witness :
    (processUnprocessedEvents "babies" [c5rowFail, c5rowOkay] c5pub
      (fun _ => true) 9).ok = true ∧
    c5rowFail ∈ (processUnprocessedEvents "babies" [c5rowFail, c5rowOkay] c5pub
      (fun _ => true) 9).db ∧
    c5rowFail.processedAt = none ∧
    ({ c5rowOkay with processedAt := some 9 }) ∈
      (processUnprocessedEvents "babies" [c5rowFail, c5rowOkay] c5pub
        (fun _ => true) 9).db :=
  sweep_publish_failure_skips_row "babies" [c5rowFail, c5rowOkay] c5pub
    (fun _ => true) 9 c5rowFail c5rowOkay ⟨"u1", "A", "1"⟩ ⟨"u2", "B", "2"⟩
    (by decide) (by decide) (by decide) rfl (by decide) (by decide)
    (by decide) rfl (by decide) (by decide)

/-! ## Claim C10 — a failed UPDATE rolls back the whole sweep batch -/

/-- Claim C10: if any record of the batch reaches its final
    `UPDATE … SET processed_at` and that statement fails, the sweep returns
    the error and the batch transaction rolls back — the table is exactly as
    before, so every row of the batch (including earlier rows whose
    publishes succeeded) keeps `processed_at = NULL` and remains eligible
    for a later sweep or notification. -/
theorem sweep_update_failure_rolls_back_batch
    (queue : String) (db : List OutboxRow) (pubOk : CreateBabyEvent → Bool)
    (updateOk : String → Bool) (now : Nat) (rec : OutboxRow)
    (hb : rec ∈ sweepBatch db)
    (hr : reachesFinalUpdate queue pubOk rec = true)
    (hu : updateOk rec.id = false) :
    (processUnprocessedEvents queue db pubOk updateOk now).ok = false ∧
    (processUnprocessedEvents queue db pubOk updateOk now).db = db := by
  obtain ⟨a, ha⟩ := sweepLoop_fails queue pubOk updateOk (sweepBatch db)
    ⟨[], []⟩ rec hb hr hu
  constructor <;> simp [processUnprocessedEvents, ha]

def c10rowA : OutboxRow :=
  ⟨"a1", "parent", "u1", "babies",
    "\x7b\"user_id\":\"u1\",\"last_name\":\"A\",\"room_number\":\"1\"\x7d", 0, none⟩

def c10rowB : OutboxRow :=
  ⟨"b1", "parent", "u2", "babies",
    "\x7b\"user_id\":\"u2\",\"last_name\":\"B\",\"room_number\":\"2\"\x7d", 1, none⟩

/-- Witness for Claim C10: both rows publish fine, every UPDATE fails; the
    batch rolls back with the table unchanged even though the first row was
    already published. -/
theorem sweep_update_failure_rolls_back_batch_witness :
    (processUnprocessedEvents "babies" [c10rowA, c10rowB] (fun _ => true)
      (fun _ => false) 9).ok = false ∧
    (processUnprocessedEvents "babies" [c10rowA, c10rowB] (fun _ => true)
      (fun _ => false) 9).db = [c10rowA, c10rowB] :=
  sweep_update_failure_rolls_back_batch "babies" [c10rowA, c10rowB]
    (fun _ => true) (fun _ => false) 9 c10rowA (by decide) (by decide) rfl

/-! ## Claim C9 — the relay's DB circuit breaker configuration -/

def relayCB (t0 : Nat) : GoBreaker := NewCircuitBreaker "Relay-PostgreSQL" t0

/-- One failed call through the breaker. -/
def cbFail (cb : GoBreaker) (t : Nat) : GoBreaker := (gbExecute cb t false).1

def cbAfterTwoFailures (t0 : Nat) : GoBreaker := cbFail (cbFail (relayCB t0) t0) t0

def cbAfterThreeFailures (t0 : Nat) : GoBreaker := cbFail (cbAfterTwoFailures t0) t0

def cbHalfOpenAt (t0 t2 : Nat) : GoBreaker := currentState (cbAfterThreeFailures t0) t2

def probe1 (t0 t2 : Nat) : GoBreaker × Option GBError :=
  beforeRequest (cbHalfOpenAt t0 t2) t2

def probe2 (t0 t2 : Nat) : GoBreaker × Option GBError :=
  beforeRequest (probe1 t0 t2).1 t2

def probe3 (t0 t2 : Nat) : GoBreaker × Option GBError :=
  beforeRequest (probe2 t0 t2).1 t2

def probe4 (t0 t2 : Nat) : GoBreaker × Option GBError :=
  beforeRequest (probe3 t0 t2).1 t2

theorem breakerTimeoutFor_relay : breakerTimeoutFor "Relay-PostgreSQL" = 10 * timeSecond := by
  rfl

theorem relayCB_eq (t0 : Nat) :
    relayCB t0 =
      ⟨3, 10 * timeSecond, 10 * timeSecond, configReadyToTrip, GBState.stClosed, 1,
        countsClear, some (t0 + 10 * timeSecond)⟩ := by
  rw [relayCB, NewCircuitBreaker, breakerTimeoutFor_relay]
  simp [gobreakerNew, toNewGeneration, timeSecond, countsClear]

theorem cbAfterTwoFailures_eq (t0 : Nat) :
    cbAfterTwoFailures t0 =
      ⟨3, 10 * timeSecond, 10 * timeSecond, configReadyToTrip, GBState.stClosed, 1,
        ⟨2, 0, 2, 0, 2⟩, some (t0 + 10 * timeSecond)⟩ := by
  have hlt : ¬ (t0 + 10 * timeSecond < t0) := by omega
  rw [cbAfterTwoFailures, relayCB_eq]
  simp [cbFail, gbExecute, beforeRequest, currentState, countsOnRequest,
    gbOnFailure, countsOnFailure, configReadyToTrip, setState, countsClear, hlt]

theorem cbAfterThreeFailures_eq (t0 : Nat) :
    cbAfterThreeFailures t0 =
      ⟨3, 10 * timeSecond, 10 * timeSecond, configReadyToTrip, GBState.stOpen, 2,
        countsClear, some (t0 + 10 * timeSecond)⟩ := by
  have hlt : ¬ (t0 + 10 * timeSecond < t0) := by omega
  rw [cbAfterThreeFailures, cbAfterTwoFailures_eq]
  simp [cbFail, gbExecute, beforeRequest, currentState, countsOnRequest,
    gbOnFailure, countsOnFailure, configReadyToTrip, setState, toNewGeneration,
    countsClear, hlt]

/-- Claim C9: the breaker `config.NewCircuitBreaker("Relay-PostgreSQL")` has
    `MaxRequests = 3` and a 10-second timeout; three consecutive failures
    (but not two) trip it from Closed to Open; while the 10-second window
    has not elapsed it stays Open, and strictly after it the breaker reports
    Half-Open; in Half-Open it admits exactly 3 probe requests and rejects
    the 4th concurrent probe with `ErrTooManyRequests`. -/
theorem relay_breaker_configuration (t0 t1 t2 : Nat)
    (ht1 : t1 ≤ t0 + 10 * timeSecond) (ht2 : t0 + 10 * timeSecond < t2) :
    (relayCB t0).maxRequests = 3 ∧
    (relayCB t0).timeout = 10 * timeSecond ∧
    (cbAfterTwoFailures t0).state = GBState.stClosed ∧
    (cbAfterThreeFailures t0).state = GBState.stOpen ∧
    breakerStateAt (cbAfterThreeFailures t0) t1 = GBState.stOpen ∧
    breakerStateAt (cbAfterThreeFailures t0) t2 = GBState.stHalfOpen ∧
    (probe1 t0 t2).2 = none ∧
    (probe2 t0 t2).2 = none ∧
    (probe3 t0 t2).2 = none ∧
    (probe4 t0 t2).2 = some GBError.errTooManyRequests := by
  have hnlt : ¬ (t0 + 10 * timeSecond < t1) := by omega
  have hHalf : cbHalfOpenAt t0 t2 =
      ⟨3, 10 * timeSecond, 10 * timeSecond, configReadyToTrip, GBState.stHalfOpen, 3,
        countsClear, none⟩ := by
    rw [cbHalfOpenAt, cbAfterThreeFailures_eq]
    simp [currentState, ht2, setState, toNewGeneration, countsClear]
  refine ⟨by rw [relayCB_eq], by rw [relayCB_eq], by rw [cbAfterTwoFailures_eq],
    by rw [cbAfterThreeFailures_eq], ?_, ?_, ?_, ?_, ?_, ?_⟩
  · rw [breakerStateAt, cbAfterThreeFailures_eq]
    simp [currentState, hnlt]
  · rw [breakerStateAt, ← cbHalfOpenAt, hHalf]
  · rw [probe1, hHalf]
    simp [beforeRequest, currentState, countsOnRequest, countsClear]
  · rw [probe2, probe1, hHalf]
    simp [beforeRequest, currentState, countsOnRequest, countsClear]
  · rw [probe3, probe2, probe1, hHalf]
    simp [beforeRequest, currentState, countsOnRequest, countsClear]
  · rw [probe4, probe3, probe2, probe1, hHalf]
    simp [beforeRequest, currentState, countsOnRequest, countsClear]

/-- Witness for Claim C9 at creation time 0, checked 1 ns after the
    10-second open window. -/
theorem relay_breaker_configuration_witness :
    (cbAfterTwoFailures 0).state = GBState.stClosed ∧
    (cbAfterThreeFailures 0).state = GBState.stOpen ∧
    breakerStateAt (cbAfterThreeFailures 0) (10 * timeSecond) = GBState.stOpen ∧
    breakerStateAt (cbAfterThreeFailures 0) (10 * timeSecond + 1) = GBState.stHalfOpen ∧
    (probe4 0 (10 * timeSecond + 1)).2 = some GBError.errTooManyRequests := by
  have h := relay_breaker_configuration 0 (10 * timeSecond) (10 * timeSecond + 1)
    (by decide) (by decide)
  exact ⟨h.2.2.1, h.2.2.2.1, h.2.2.2.2.1, h.2.2.2.2.2.1, h.2.2.2.2.2.2.2.2.2⟩
